import Mathlib

/-!
Verification of the AIS BoatTracking ingestion pipeline
(`Tools/1-Data_Gathering/BoatTracking/main.go`).

The Go program connects to an AIS websocket feed, sends one subscribe
message, and then loops: read a frame, `json.Unmarshal` it into the
`Message` struct, and — when `MessageType == "PositionReport"` — publish
the raw frame bytes to Kafka keyed by the decimal form of `UserID`.

The embedding below models:
  * JSON values and a parser for them, following the syntax accepted by
    Go's `encoding/json` scanner (strict number grammar, string escapes,
    no trailing data after the top-level value);
  * Go's `json.Unmarshal` into the `Message` struct (object keys matched
    case-insensitively against field names, unknown keys ignored,
    duplicate keys processed in order so the last one wins, `null`
    leaving the target untouched, type mismatches reported as errors);
  * the read/decode/publish loop of `connectAISStream` as a function of
    a finite trace of read events, each inbound frame paired with the
    broker's answer to the publish that the frame may trigger;
  * `main`'s environment-variable configuration and Kafka writer setup;
  * the `LeastBytes` partition balancer of the `segmentio/kafka-go`
    library, which `main` installs in the writer (`kafka.LeastBytes{}`).

Frames are modelled as lists of characters (the byte/UTF-8 level of the
wire is abstracted to characters), and Go `float64` fields as the exact
decimal value of the JSON literal (`GoFloat`), since no published output
depends on floating-point arithmetic on the coordinates.
-/

/-! ## JSON values -/

/-- A JSON number literal: its exact value is `mant * 10 ^ exp10`.
`intLit = some n` when the literal had integer syntax (no fraction and no
exponent part); Go's decoder accepts a number for an `int` field only in
that case (it re-parses the literal with `strconv.ParseInt`). -/
structure JNum where
  mant : Int
  exp10 : Int
  intLit : Option Int
deriving DecidableEq

/-- A parsed JSON value. Object members keep their source order, so the
decoder can process duplicates the way Go does. -/
inductive Json where
  | null
  | bool (b : Bool)
  | str (s : String)
  | num (n : JNum)
  | arr (elems : List Json)
  | obj (members : List (String × Json))

/-! ## JSON parser (the syntax accepted by Go's `encoding/json`) -/

def isWsChar (c : Char) : Bool :=
  c = ' ' || c = '\t' || c = '\n' || c = '\r'

def skipWs : List Char → List Char
  | [] => []
  | c :: cs => if isWsChar c then skipWs cs else c :: cs

def digitVal (c : Char) : Option Nat :=
  if '0' ≤ c ∧ c ≤ '9' then some (c.toNat - '0'.toNat) else none

def hexVal (c : Char) : Option Nat :=
  if '0' ≤ c ∧ c ≤ '9' then some (c.toNat - '0'.toNat)
  else if 'a' ≤ c ∧ c ≤ 'f' then some (c.toNat - 'a'.toNat + 10)
  else if 'A' ≤ c ∧ c ≤ 'F' then some (c.toNat - 'A'.toNat + 10)
  else none

def takeDigits : List Char → List Nat × List Char
  | [] => ([], [])
  | c :: cs =>
    match digitVal c with
    | some d => let (ds, rest) := takeDigits cs; (d :: ds, rest)
    | none => ([], c :: cs)

def digitsToNat (ds : List Nat) : Nat :=
  ds.foldl (fun acc d => 10 * acc + d) 0

/-- Integer part of a JSON number: `0`, or a nonzero digit followed by
digits. A leading zero followed by another digit is a syntax error. -/
def parseIntPart : List Char → Option (Nat × List Char)
  | [] => none
  | c :: cs =>
    if c = '0' then
      match cs with
      | d :: _ => if (digitVal d).isSome then none else some (0, cs)
      | [] => some (0, cs)
    else
      match digitVal c with
      | some d => let (ds, rest) := takeDigits cs; some (digitsToNat (d :: ds), rest)
      | none => none

/-- Fraction part: a dot must be followed by at least one digit; no dot
means an empty digit list. -/
def parseFracPart : List Char → Option (List Nat × List Char)
  | '.' :: cs =>
    match takeDigits cs with
    | ([], _) => none
    | (ds, rest) => some (ds, rest)
  | s => some ([], s)

/-- Exponent part: `e`/`E`, an optional sign, at least one digit;
`some (none, s)` when there is no exponent. -/
def parseExpPart : List Char → Option (Option Int × List Char)
  | [] => some (none, [])
  | c :: cs =>
    if c = 'e' ∨ c = 'E' then
      let signed : Int × List Char :=
        match cs with
        | '+' :: r => (1, r)
        | '-' :: r => (-1, r)
        | r => (1, r)
      match takeDigits signed.2 with
      | ([], _) => none
      | (ds, rest) => some (some (signed.1 * (digitsToNat ds : Int)), rest)
    else some (none, c :: cs)

/-- A JSON number, returned with its exact decimal value. -/
def parseNumber (s : List Char) : Option (JNum × List Char) :=
  let signed : Bool × List Char :=
    match s with
    | '-' :: cs => (true, cs)
    | _ => (false, s)
  match parseIntPart signed.2 with
  | none => none
  | some (ip, s1) =>
    match parseFracPart s1 with
    | none => none
    | some (fds, s2) =>
      match parseExpPart s2 with
      | none => none
      | some (e, s3) =>
        let mantNat : Nat := ip * 10 ^ fds.length + digitsToNat fds
        let mant : Int := if signed.1 then -(mantNat : Int) else (mantNat : Int)
        let exp10 : Int := e.getD 0 - (fds.length : Int)
        let intLit : Option Int :=
          if fds.isEmpty ∧ e.isNone then some mant else none
        some (⟨mant, exp10, intLit⟩, s3)

/-- Four hex digits of a `\u` escape. -/
def parseU4 : List Char → Option (Nat × List Char)
  | a :: b :: c :: d :: rest =>
    match hexVal a, hexVal b, hexVal c, hexVal d with
    | some x, some y, some z, some w => some (((x * 16 + y) * 16 + z) * 16 + w, rest)
    | _, _, _, _ => none
  | _ => none

/-- Body of a JSON string after the opening quote. Escapes follow Go's
decoder: the standard eight plus `\u`; a high surrogate pairs with a
following low one, a lone surrogate becomes U+FFFD; unescaped control
characters are a syntax error. -/
def parseStringBody : Nat → List Char → List Char → Option (String × List Char)
  | 0, _, _ => none
  | _ + 1, _, [] => none
  | fuel + 1, acc, c :: cs =>
    if c = '"' then some (String.mk acc.reverse, cs)
    else if c = '\\' then
      match cs with
      | [] => none
      | e :: cs2 =>
        if e = '"' then parseStringBody fuel ('"' :: acc) cs2
        else if e = '\\' then parseStringBody fuel ('\\' :: acc) cs2
        else if e = '/' then parseStringBody fuel ('/' :: acc) cs2
        else if e = 'b' then parseStringBody fuel (Char.ofNat 8 :: acc) cs2
        else if e = 'f' then parseStringBody fuel (Char.ofNat 12 :: acc) cs2
        else if e = 'n' then parseStringBody fuel ('\n' :: acc) cs2
        else if e = 'r' then parseStringBody fuel ('\r' :: acc) cs2
        else if e = 't' then parseStringBody fuel ('\t' :: acc) cs2
        else if e = 'u' then
          match parseU4 cs2 with
          | none => none
          | some (hi, cs3) =>
            if 0xD800 ≤ hi ∧ hi < 0xDC00 then
              match cs3 with
              | '\\' :: 'u' :: cs4 =>
                match parseU4 cs4 with
                | none => none
                | some (lo, cs5) =>
                  if 0xDC00 ≤ lo ∧ lo < 0xE000 then
                    parseStringBody fuel
                      (Char.ofNat (0x10000 + (hi - 0xD800) * 0x400 + (lo - 0xDC00)) :: acc) cs5
                  else parseStringBody fuel (Char.ofNat 0xFFFD :: acc) cs3
              | _ => parseStringBody fuel (Char.ofNat 0xFFFD :: acc) cs3
            else if 0xDC00 ≤ hi ∧ hi < 0xE000 then
              parseStringBody fuel (Char.ofNat 0xFFFD :: acc) cs3
            else parseStringBody fuel (Char.ofNat hi :: acc) cs3
        else none
    else if c.toNat < 0x20 then none
    else parseStringBody fuel (c :: acc) cs

/-- Consume an exact literal (`true`, `false`, `null` tails). -/
def expectLit : List Char → List Char → Option (List Char)
  | [], s => some s
  | _ :: _, [] => none
  | c :: ls, d :: ss => if c = d then expectLit ls ss else none

/-- Defunctionalised parser mode: a value, the members of an object, or the
elements of an array (with the members/elements read so far). -/
inductive PMode where
  | value
  | members (acc : List (String × Json))
  | elems (acc : List Json)

/-- Recursive JSON parser, structurally recursive on fuel so that it
evaluates by kernel reduction. `parseTop` supplies enough fuel for any
input (each unit of fuel consumes input, except the one step from an
array to its first element). -/
def parseP : Nat → PMode → List Char → Option (Json × List Char)
  | 0, _, _ => none
  | _ + 1, _, [] => none
  | fuel + 1, .value, c :: cs =>
    if c = '{' then
      match skipWs cs with
      | '}' :: rest => some (.obj [], rest)
      | s1 => parseP fuel (.members []) s1
    else if c = '[' then
      match skipWs cs with
      | ']' :: rest => some (.arr [], rest)
      | s1 => parseP fuel (.elems []) s1
    else if c = '"' then
      match parseStringBody (cs.length + 1) [] cs with
      | some (str, rest) => some (.str str, rest)
      | none => none
    else if c = 't' then (expectLit ['r', 'u', 'e'] cs).map (fun r => (.bool true, r))
    else if c = 'f' then (expectLit ['a', 'l', 's', 'e'] cs).map (fun r => (.bool false, r))
    else if c = 'n' then (expectLit ['u', 'l', 'l'] cs).map (fun r => (.null, r))
    else
      match parseNumber (c :: cs) with
      | some (n, rest) => some (.num n, rest)
      | none => none
  | fuel + 1, .members acc, c :: cs =>
    if c = '"' then
      match parseStringBody (cs.length + 1) [] cs with
      | none => none
      | some (k, rest) =>
        match skipWs rest with
        | ':' :: rest2 =>
          match parseP fuel .value (skipWs rest2) with
          | none => none
          | some (v, rest3) =>
            match skipWs rest3 with
            | ',' :: rest4 => parseP fuel (.members (acc ++ [(k, v)])) (skipWs rest4)
            | '}' :: rest4 => some (.obj (acc ++ [(k, v)]), rest4)
            | _ => none
        | _ => none
    else none
  | fuel + 1, .elems acc, s =>
    match parseP fuel .value s with
    | none => none
    | some (v, rest) =>
      match skipWs rest with
      | ',' :: rest2 => parseP fuel (.elems (acc ++ [v])) (skipWs rest2)
      | ']' :: rest2 => some (.arr (acc ++ [v]), rest2)
      | _ => none

/-- Parse a complete frame: one JSON value, with only whitespace around it
(Go's `Unmarshal` rejects trailing data after the top-level value). -/
def parseTop (s : List Char) : Option Json :=
  match parseP (2 * s.length + 8) .value (skipWs s) with
  | some (j, rest) => if skipWs rest = [] then some j else none
  | none => none

/-! ## The Go structs of `main.go` and `json.Unmarshal` into them -/

/-- A Go `float64` field, holding the exact decimal value
`mant * 10 ^ exp10` of the JSON literal assigned to it. The rounding to
binary floating point is abstracted away: the program never computes with
the coordinates, it only prints them. The zero value is `⟨0, 0⟩`. -/
structure GoFloat where
  mant : Int
  exp10 : Int
deriving DecidableEq

/-- `type PositionReport struct { UserID int; Latitude float64; Longitude float64 }`. -/
structure PositionReport where
  UserID : Int
  Latitude : GoFloat
  Longitude : GoFloat
deriving DecidableEq

/-- The anonymous struct `struct { PositionReport PositionReport }` that is
the type of the `Message` field. -/
structure MessageInner where
  PositionReport : PositionReport
deriving DecidableEq

set_option linter.dupNamespace false

/-- `type Message struct { MessageType string; Message struct { ... } }`. -/
structure Message where
  MessageType : String
  Message : MessageInner
deriving DecidableEq

/-- The zero value a fresh `var message Message` starts from. -/
def zeroMessage : Message := ⟨"", ⟨⟨0, ⟨0, 0⟩, ⟨0, 0⟩⟩⟩⟩

/-- Case folding of one character, standing in for the folding
`strings.EqualFold` applies when Go matches JSON object keys to struct
field names: ASCII letters fold to lower case, and the two non-ASCII
characters that fold onto letters of our field names (long s U+017F and
the Kelvin sign U+212A) are included. -/
def foldChar (c : Char) : Char :=
  if c = Char.ofNat 0x17F then 's'
  else if c = Char.ofNat 0x212A then 'k'
  else c.toLower

/-- Go matches an incoming object key to a struct field name up to case
folding (`encoding/json`: "preferring an exact match but also accepting a
case-insensitive match"; no two field names of our structs fold together,
so the preference never matters). -/
def eqFold (a b : String) : Bool :=
  a.data.map foldChar == b.data.map foldChar

/-- The `int64` range check `strconv.ParseInt` applies for an `int` field. -/
def int64Range (i : Int) : Prop := -(2 ^ 63) ≤ i ∧ i < 2 ^ 63

instance (i : Int) : Decidable (int64Range i) := by
  unfold int64Range; infer_instance

/-- Assign one JSON object member into a `PositionReport`, the way Go's
decoder does: `null` leaves the field, a number goes into `UserID` only
with integer syntax and in `int64` range, any number goes into the float
fields, keys matching no field are ignored, anything else is a type
mismatch (Go records an `UnmarshalTypeError`; the caller only checks
`err != nil`, so the error value itself is not modelled). -/
def assignPRField (pr : PositionReport) (k : String) (v : Json) : Except Unit PositionReport :=
  if eqFold k "UserID" then
    match v with
    | .null => .ok pr
    | .num n =>
      match n.intLit with
      | some i => if int64Range i then .ok { pr with UserID := i } else .error ()
      | none => .error ()
    | _ => .error ()
  else if eqFold k "Latitude" then
    match v with
    | .null => .ok pr
    | .num n => .ok { pr with Latitude := ⟨n.mant, n.exp10⟩ }
    | _ => .error ()
  else if eqFold k "Longitude" then
    match v with
    | .null => .ok pr
    | .num n => .ok { pr with Longitude := ⟨n.mant, n.exp10⟩ }
    | _ => .error ()
  else .ok pr

/-- Fold a member list into a `PositionReport` in source order (so a
duplicate key is decoded twice and the later one wins, as in Go). -/
def applyPR (pr : PositionReport) : List (String × Json) → Except Unit PositionReport
  | [] => .ok pr
  | e :: es =>
    match assignPRField pr e.1 e.2 with
    | .error u => .error u
    | .ok pr2 => applyPR pr2 es

/-- Assign one member into the anonymous inner struct. An object assigned
to the `PositionReport` field merges into the fields already decoded, as
Go decodes into the existing struct value. -/
def assignInnerField (im : MessageInner) (k : String) (v : Json) : Except Unit MessageInner :=
  if eqFold k "PositionReport" then
    match v with
    | .null => .ok im
    | .obj pes =>
      match applyPR im.PositionReport pes with
      | .error u => .error u
      | .ok pr => .ok ⟨pr⟩
    | _ => .error ()
  else .ok im

def applyInner (im : MessageInner) : List (String × Json) → Except Unit MessageInner
  | [] => .ok im
  | e :: es =>
    match assignInnerField im e.1 e.2 with
    | .error u => .error u
    | .ok im2 => applyInner im2 es

/-- Assign one member into the outer `Message` struct. -/
def assignTopField (m : Message) (k : String) (v : Json) : Except Unit Message :=
  if eqFold k "MessageType" then
    match v with
    | .null => .ok m
    | .str s => .ok { m with MessageType := s }
    | _ => .error ()
  else if eqFold k "Message" then
    match v with
    | .null => .ok m
    | .obj mes =>
      match applyInner m.Message mes with
      | .error u => .error u
      | .ok im => .ok { m with Message := im }
    | _ => .error ()
  else .ok m

def applyTop (m : Message) : List (String × Json) → Except Unit Message
  | [] => .ok m
  | e :: es =>
    match assignTopField m e.1 e.2 with
    | .error u => .error u
    | .ok m2 => applyTop m2 es

/-- `json.Unmarshal` of a parsed value into `var message Message`: a JSON
object decodes member by member, `null` is a no-op leaving the zero
value, and any other top-level value is a type mismatch. -/
def unmarshalMessage : Json → Except Unit Message
  | .null => .ok zeroMessage
  | .obj es => applyTop zeroMessage es
  | _ => .error ()

deriving instance DecidableEq for Except

/-- `decode`: `json.Unmarshal(messageJSON, &message)` on the raw frame. -/
def decodeMessage (frame : List Char) : Except Unit Message :=
  match parseTop frame with
  | none => .error ()
  | some j => unmarshalMessage j

/-! ## The read/decode/publish loop of `connectAISStream` -/

/-- A record handed to `kafkaWriter.WriteMessages`:
`kafka.Message{Key: []byte(fmt.Sprintf("%d", UserID)), Value: messageJSON}`. -/
structure KafkaMessage where
  Key : String
  Value : List Char
deriving DecidableEq

/-- The error logs the loop can emit (`log.Printf`). The informational
`fmt.Printf` of each position report goes to stdout and is not an error;
it is not modelled. -/
inductive LogEvent where
  | decodeError
  | publishError
deriving DecidableEq

/-- What one loop iteration produced: the publish calls made (`attempts`),
the publishes the broker acknowledged (`delivered`), and the error logs. -/
structure StepOut where
  attempts : List KafkaMessage
  delivered : List KafkaMessage
  logs : List LogEvent
deriving DecidableEq

/-- The body of the read loop for one successfully read frame. `pubOk`
says whether the broker acknowledges the publish, should one be
attempted. A decode failure is logged and the frame skipped; a frame of
any other `MessageType` is dropped silently; a `PositionReport` frame is
published with key `fmt.Sprintf("%d", UserID)` and the raw frame bytes as
value, and a failed publish is logged and the record dropped. -/
def stepFrame (frame : List Char) (pubOk : Bool) : StepOut :=
  match decodeMessage frame with
  | .error _ => ⟨[], [], [.decodeError]⟩
  | .ok m =>
    if m.MessageType = "PositionReport" then
      let outRec : KafkaMessage := ⟨toString m.Message.PositionReport.UserID, frame⟩
      if pubOk then ⟨[outRec], [outRec], []⟩ else ⟨[outRec], [], [.publishError]⟩
    else ⟨[], [], []⟩

/-- One `conn.ReadMessage()` outcome: a frame (paired with the broker's
answer to the publish it may trigger), or a read error / closed stream. -/
inductive ReadEvent where
  | frame (bytes : List Char) (pubOk : Bool)
  | fail
deriving DecidableEq

/-- Whether the loop returned with a read error, or was still streaming
when the (finite) trace of modelled events ran out. -/
inductive LoopEnd where
  | readError
  | running
deriving DecidableEq

/-- The `for` loop of `connectAISStream` over a finite trace of read
events: a read failure returns at once (`return fmt.Errorf(...)`), so
everything after the first `.fail` is never read. -/
def runLoop : List ReadEvent → StepOut × LoopEnd
  | [] => (⟨[], [], []⟩, .running)
  | .fail :: _ => (⟨[], [], []⟩, .readError)
  | .frame b ok :: rest =>
    let s := stepFrame b ok
    let r := runLoop rest
    (⟨s.attempts ++ r.1.attempts, s.delivered ++ r.1.delivered, s.logs ++ r.1.logs⟩, r.2)

/-! ## The subscribe handshake -/

/-- `type SubscribeMessage struct { APIKey string; BoundingBoxes [][][]float64 }`.
The coordinates are the exact values of the source literals. -/
structure SubscribeMessage where
  APIKey : String
  BoundingBoxes : List (List (List ℚ))

/-- The subscribe message `connectAISStream` builds: the hardcoded API key
and the single whole-world bounding box `{{-180, -90}, {180, 90}}`. -/
def subscribeMessage : SubscribeMessage :=
  ⟨"4275544f465907fb8c57875dcc52425666683d75", [[[-180, -90], [180, 90]]]⟩

/-- `json.Marshal` of one `float64` coordinate. Go formats a float in the
shortest form that round-trips, which for an integral value is its
integer digits; every coordinate in the source is integral. -/
def marshalCoord (q : ℚ) : String :=
  if q.den = 1 then toString q.num else toString q

/-- `json.Marshal` of a JSON array, given the marshaller of an element. -/
def marshalArr (f : a → String) (xs : List a) : String :=
  "[" ++ String.intercalate "," (xs.map f) ++ "]"

/-- `json.Marshal(subscribeMessage)`: fields in struct order under their
tags; the API key contains no character that needs escaping. -/
def marshalSubscribe (sm : SubscribeMessage) : String :=
  "\x7b\"APIKey\":\"" ++ sm.APIKey ++ "\",\"BoundingBoxes\":"
    ++ marshalArr (marshalArr (marshalArr marshalCoord)) sm.BoundingBoxes ++ "\x7d"

/-- The bytes of the first (and only) outbound websocket frame. -/
def subscribeJSON : List Char := (marshalSubscribe subscribeMessage).data

/-! ## `connectAISStream` and `main` -/

/-- The environment the pipeline runs against: whether the websocket dial
and the subscribe send succeed, and the trace of read events. -/
structure Env where
  connectOk : Bool
  subscribeOk : Bool
  events : List ReadEvent

/-- The errors `connectAISStream` can return. -/
inductive PipeError where
  | connectFailed
  | subscribeFailed
  | readFailed
deriving DecidableEq

/-- The driver states named by the specification. -/
inductive PipeState where
  | Disconnected
  | Connecting
  | Subscribed
  | Streaming
  | Terminated
deriving DecidableEq

/-- Everything observable about one run of `connectAISStream`: the
outbound websocket frames sent, the publish activity and error logs, the
returned error (`none` while the finite trace is still streaming), how
many websocket dials were made, and the driver state afterwards. -/
structure PipeOut where
  sent : List (List Char)
  step : StepOut
  err : Option PipeError
  dials : Nat
  finalState : PipeState
deriving DecidableEq

/-- `connectAISStream`: dial once, send the subscribe message, then run
the read loop. Connect and subscribe failures return at once; a read
failure ends the loop with an error; there is no reconnect path. -/
def connectAISStream (env : Env) : PipeOut :=
  if env.connectOk = false then ⟨[], ⟨[], [], []⟩, some .connectFailed, 1, .Terminated⟩
  else if env.subscribeOk = false then ⟨[], ⟨[], [], []⟩, some .subscribeFailed, 1, .Terminated⟩
  else
    let r := runLoop env.events
    ⟨[subscribeJSON], r.1,
      match r.2 with | .readError => some .readFailed | .running => none,
      1,
      match r.2 with | .readError => .Terminated | .running => .Streaming⟩

/-- The balancer `main` installs in the Kafka writer. -/
inductive BalancerKind where
  | leastBytes
deriving DecidableEq

/-- What `main` does: read `KAFKA_BROKER` and `KAFKA_TOPIC` from the
environment (empty means unset, Go's `os.Getenv`), fall back to the
defaults, build the writer with the `LeastBytes` balancer, run
`connectAISStream`, and `log.Fatal` (exit code 1) on its error. While the
finite trace is still streaming no exit happens (`exitCode = none`). -/
structure MainOut where
  broker : String
  topic : String
  balancer : BalancerKind
  pipe : PipeOut
  exitCode : Option Nat
deriving DecidableEq

/-- The Go `main` (Lean reserves the name `main` for executables). -/
def goMain (envVars : String → String) (net : Env) : MainOut :=
  let kafkaBroker := if envVars "KAFKA_BROKER" = "" then "localhost:9092" else envVars "KAFKA_BROKER"
  let kafkaTopic := if envVars "KAFKA_TOPIC" = "" then "ais-position-reports" else envVars "KAFKA_TOPIC"
  let p := connectAISStream net
  ⟨kafkaBroker, kafkaTopic, .leastBytes, p,
    match p.err with | some _ => some 1 | none => none⟩

/-! ## The `LeastBytes` balancer of `segmentio/kafka-go`

`main` sets `Balancer: &kafka.LeastBytes{}` on the writer. The library's
`Balance` keeps one byte counter per partition, picks the first partition
whose counter is minimal — the message key plays no part in the choice —
and adds the message size to that counter. -/

/-- One counter per partition, as `LeastBytes.makeCounters` builds them:
`(partition, bytes)`, bytes starting at zero. -/
def makeCounters (partitions : List Nat) : List (Nat × Nat) :=
  partitions.map (fun p => (p, 0))

/-- The scan of `LeastBytes.Balance`: index of the first counter with
strictly minimal bytes (`if c.bytes < minBytes`). -/
def lbScan : List (Nat × Nat) → Nat → Nat → Nat → Nat
  | [], _, best, _ => best
  | c :: rest, i, best, bestBytes =>
    if c.2 < bestBytes then lbScan rest (i + 1) i c.2
    else lbScan rest (i + 1) best bestBytes

/-- `LeastBytes.Balance`: choose the partition, then add
`uint64(len(msg.Key)) + uint64(len(msg.Value))` to its counter (a
`uint64`, hence the reduction mod `2 ^ 64`). Returns the chosen partition
and the updated counters. -/
def lbBalance (counters : List (Nat × Nat)) (msgBytes : Nat) : Nat × List (Nat × Nat) :=
  match counters with
  | [] => (0, [])
  | c0 :: rest =>
    let idx := lbScan rest 1 0 c0.2
    let cur := (c0 :: rest).getD idx (0, 0)
    (cur.1, (c0 :: rest).set idx (cur.1, (cur.2 + msgBytes) % 2 ^ 64))

/-- The byte size `LeastBytes` charges for one of our records. -/
def kafkaMessageSize (m : KafkaMessage) : Nat := m.Key.length + m.Value.length

/-! ## Concrete frames used as witnesses and counterexamples -/

/-- The end-to-end scenario frame of the spec (section 8). -/
def e2eFrame : List Char :=
  ("\x7b\"MessageType\":\"PositionReport\",\"Message\":\x7b\"PositionReport\":"
    ++ "\x7b\"UserID\":367123456,\"Latitude\":51.5,\"Longitude\":-0.12\x7d\x7d\x7d").data

/-- A valid frame of another message type (spec section 8). -/
def shipFrame : List Char :=
  "\x7b\"MessageType\":\"ShipStaticData\",\"Message\":\x7b\x7d\x7d".data

/-- The truncated, malformed frame of the spec's decode-error scenario. -/
def truncatedFrame : List Char := "\x7b\"MessageType\":".data

/-- A `PositionReport` frame whose payload is empty. -/
def emptyPayloadFrame : List Char :=
  "\x7b\"MessageType\":\"PositionReport\",\"Message\":\x7b\x7d\x7d".data

/-! ## Predicates used to state the claims -/

/-- A key that Go's decoder matches to no field of `PositionReport`. -/
def unknownPRKey (k : String) : Bool :=
  !(eqFold k "UserID" || eqFold k "Latitude" || eqFold k "Longitude")

/-- A key matched to no field of the outer `Message` struct. -/
def unknownTopKey (k : String) : Bool :=
  !(eqFold k "MessageType" || eqFold k "Message")

/-- A JSON value for the `PositionReport` field that decodes without
assigning any of its fields: `null`, or an object none of whose keys
matches a field. -/
def zeroPRVal : Json → Bool
  | .null => true
  | .obj pes => pes.all (fun e => unknownPRKey e.1)
  | _ => false

/-- A JSON value for the `Message` field that leaves the nested
`PositionReport` at its zero value. -/
def zeroMsgVal : Json → Bool
  | .null => true
  | .obj mes => mes.all (fun e => if eqFold e.1 "PositionReport" then zeroPRVal e.2 else true)
  | _ => false

/-- A top-level object member that decodes without error and without
touching the nested `PositionReport`: a string (or `null`) for
`MessageType`, a payload-free value for `Message`, or an unknown key. -/
def zeroTopEntry (e : String × Json) : Bool :=
  if eqFold e.1 "MessageType" then
    match e.2 with
    | .str _ => true
    | .null => true
    | _ => false
  else if eqFold e.1 "Message" then zeroMsgVal e.2
  else true

/-- The `MessageType` the decoder is left with after folding the members
in order over a current value `acc` (the last string assigned wins). -/
def effMessageType (es : List (String × Json)) (acc : String) : String :=
  match es with
  | [] => acc
  | e :: rest =>
    effMessageType rest
      (if eqFold e.1 "MessageType" then
        (match e.2 with | .str s => s | _ => acc)
      else acc)

/-- A bounding-box corner read as `(latitude, longitude)`, each coordinate
in its valid range — the reading the specification gives the corners. -/
def latLonCorner (c : List ℚ) : Bool :=
  match c with
  | [lat, lon] => decide (-90 ≤ lat ∧ lat ≤ 90 ∧ -180 ≤ lon ∧ lon ≤ 180)
  | _ => false

/-- A bounding-box corner read as `(longitude, latitude)`, each coordinate
in its valid range — the reading under which the source's corners are
valid. -/
def lonLatCorner (c : List ℚ) : Bool :=
  match c with
  | [lon, lat] => decide (-180 ≤ lon ∧ lon ≤ 180 ∧ -90 ≤ lat ∧ lat ≤ 90)
  | _ => false

/-- The environment the claim about configuration variables describes:
`BROKER_ADDRESS` and `TOPIC_NAME` set, the `KAFKA_*` variables unset. -/
def c8ClaimEnv : String → String := fun k =>
  if k = "BROKER_ADDRESS" then "broker.example:9999"
  else if k = "TOPIC_NAME" then "custom-topic"
  else ""

/-! ## Helper lemmas -/

theorem stepFrame_nonPR (b : List Char) (m : Message) (ok : Bool)
    (hdec : decodeMessage b = .ok m) (hmt : m.MessageType ≠ "PositionReport") :
    stepFrame b ok = ⟨[], [], []⟩ := by
  unfold stepFrame
  rw [hdec]
  simp [hmt]

theorem stepFrame_decodeErr (b : List Char) (ok : Bool)
    (hdec : decodeMessage b = .error ()) :
    stepFrame b ok = ⟨[], [], [.decodeError]⟩ := by
  unfold stepFrame
  rw [hdec]

theorem stepFrame_pubFail (b : List Char) (m : Message)
    (hdec : decodeMessage b = .ok m) (hmt : m.MessageType = "PositionReport") :
    stepFrame b false =
      ⟨[⟨toString m.Message.PositionReport.UserID, b⟩], [], [.publishError]⟩ := by
  unfold stepFrame
  rw [hdec]
  simp [hmt]

theorem runLoop_fail_absorb (pre post : List ReadEvent) :
    runLoop (pre ++ .fail :: post) = runLoop (pre ++ [.fail]) := by
  induction pre with
  | nil => rfl
  | cons e rest ih =>
    cases e with
    | fail => rfl
    | frame b ok =>
      show runLoop (.frame b ok :: (rest ++ .fail :: post)) = _
      simp only [runLoop]
      rw [ih]
      rfl

theorem runLoop_fail_readError (pre post : List ReadEvent) :
    (runLoop (pre ++ .fail :: post)).2 = .readError := by
  induction pre with
  | nil => rfl
  | cons e rest ih =>
    cases e with
    | fail => rfl
    | frame b ok =>
      show (runLoop (.frame b ok :: (rest ++ .fail :: post))).2 = _
      unfold runLoop
      exact ih

theorem assignPRField_unknown (pr : PositionReport) (k : String) (v : Json)
    (h : unknownPRKey k = true) : assignPRField pr k v = .ok pr := by
  simp only [unknownPRKey, Bool.not_eq_true', Bool.or_eq_false_iff] at h
  simp [assignPRField, h.1.1, h.1.2, h.2]

theorem applyPR_unknown (pes : List (String × Json)) (pr : PositionReport)
    (h : pes.all (fun e => unknownPRKey e.1) = true) : applyPR pr pes = .ok pr := by
  induction pes generalizing pr with
  | nil => rfl
  | cons e rest ih =>
    simp only [List.all_cons, Bool.and_eq_true] at h
    unfold applyPR
    rw [assignPRField_unknown pr e.1 e.2 h.1]
    exact ih pr h.2

theorem assignInnerField_zero (im : MessageInner) (k : String) (v : Json)
    (h : (if eqFold k "PositionReport" then zeroPRVal v else true) = true) :
    assignInnerField im k v = .ok im := by
  by_cases hk : eqFold k "PositionReport" = true
  · rw [if_pos hk] at h
    cases v with
    | null => simp [assignInnerField, hk]
    | obj pes =>
      have hall : pes.all (fun e => unknownPRKey e.1) = true := by simpa [zeroPRVal] using h
      simp [assignInnerField, hk, applyPR_unknown pes im.PositionReport hall]
    | bool b => simp [zeroPRVal] at h
    | str s => simp [zeroPRVal] at h
    | num n => simp [zeroPRVal] at h
    | arr xs => simp [zeroPRVal] at h
  · simp [assignInnerField, hk]

theorem applyInner_zero (mes : List (String × Json)) (im : MessageInner)
    (h : mes.all (fun e => if eqFold e.1 "PositionReport" then zeroPRVal e.2 else true) = true) :
    applyInner im mes = .ok im := by
  induction mes generalizing im with
  | nil => rfl
  | cons e rest ih =>
    simp only [List.all_cons, Bool.and_eq_true] at h
    unfold applyInner
    rw [assignInnerField_zero im e.1 e.2 h.1]
    exact ih im h.2

theorem assignTopField_mt (m : Message) (k : String) (v : Json)
    (h1 : eqFold k "MessageType" = true) :
    assignTopField m k v =
      (match v with
      | .null => .ok m
      | .str s => .ok { m with MessageType := s }
      | _ => .error ()) := by
  delta assignTopField
  rw [if_pos h1]

theorem assignTopField_msg (m : Message) (k : String) (v : Json)
    (h1 : eqFold k "MessageType" = false) (h2 : eqFold k "Message" = true) :
    assignTopField m k v =
      (match v with
      | .null => .ok m
      | .obj mes =>
        (match applyInner m.Message mes with
        | .error u => .error u
        | .ok im => .ok { m with Message := im })
      | _ => .error ()) := by
  delta assignTopField
  rw [if_neg (by simp [h1]), if_pos h2]

theorem assignTopField_other (m : Message) (k : String) (v : Json)
    (h1 : eqFold k "MessageType" = false) (h2 : eqFold k "Message" = false) :
    assignTopField m k v = .ok m := by
  delta assignTopField
  rw [if_neg (by simp [h1]), if_neg (by simp [h2])]

theorem assignTopField_unknown (m : Message) (k : String) (v : Json)
    (h : unknownTopKey k = true) : assignTopField m k v = .ok m := by
  simp only [unknownTopKey, Bool.not_eq_true', Bool.or_eq_false_iff] at h
  exact assignTopField_other m k v h.1 h.2

theorem applyTop_zero_step (e : String × Json) (es : List (String × Json)) (m : Message)
    (he : zeroTopEntry e = true) :
    applyTop m (e :: es) =
      applyTop { m with MessageType :=
        (if eqFold e.1 "MessageType" = true then
          (match e.2 with | .str s => s | _ => m.MessageType)
        else m.MessageType) } es := by
  unfold zeroTopEntry at he
  show (match assignTopField m e.1 e.2 with
    | Except.error u => Except.error u
    | Except.ok m2 => applyTop m2 es) = _
  cases h1 : eqFold e.1 "MessageType" with
  | true =>
    rw [if_pos h1] at he
    cases hv : e.2 with
    | str s => rw [assignTopField_mt m e.1 (Json.str s) h1]; rfl
    | null => rw [assignTopField_mt m e.1 Json.null h1]; rfl
    | bool b => rw [hv] at he; simp at he
    | num n => rw [hv] at he; simp at he
    | arr xs => rw [hv] at he; simp at he
    | obj mes => rw [hv] at he; simp at he
  | false =>
    rw [if_neg (by simp [h1])] at he
    cases h2 : eqFold e.1 "Message" with
    | true =>
      rw [if_pos h2] at he
      cases hv : e.2 with
      | null => rw [assignTopField_msg m e.1 Json.null h1 h2]; rfl
      | obj mes =>
        rw [hv] at he
        have hinner : applyInner m.Message mes = Except.ok m.Message :=
          applyInner_zero mes m.Message (by simpa [zeroMsgVal] using he)
        rw [assignTopField_msg m e.1 (Json.obj mes) h1 h2]
        show (match (match applyInner m.Message mes with
          | Except.error u => Except.error u
          | Except.ok im => Except.ok { m with Message := im }) with
          | Except.error u => Except.error u
          | Except.ok m2 => applyTop m2 es) = _
        rw [hinner]
        rfl
      | bool b => rw [hv] at he; simp [zeroMsgVal] at he
      | str x => rw [hv] at he; simp [zeroMsgVal] at he
      | num n => rw [hv] at he; simp [zeroMsgVal] at he
      | arr xs => rw [hv] at he; simp [zeroMsgVal] at he
    | false =>
      rw [assignTopField_other m e.1 e.2 h1 h2]
      rfl

theorem applyTop_zero (es : List (String × Json)) (m : Message)
    (h : es.all zeroTopEntry = true) :
    applyTop m es = .ok ⟨effMessageType es m.MessageType, m.Message⟩ := by
  induction es generalizing m with
  | nil => rfl
  | cons e rest ih =>
    simp only [List.all_cons, Bool.and_eq_true] at h
    rw [applyTop_zero_step e rest m h.1, ih _ h.2]
    rfl

theorem applyTop_append (l1 l2 : List (String × Json)) (m : Message) :
    applyTop m (l1 ++ l2) = (applyTop m l1).bind (fun m2 => applyTop m2 l2) := by
  induction l1 generalizing m with
  | nil => rfl
  | cons e rest ih =>
    show (match assignTopField m e.1 e.2 with
      | Except.error u => Except.error u
      | Except.ok m2 => applyTop m2 (rest ++ l2)) =
      ((match assignTopField m e.1 e.2 with
        | Except.error u => Except.error u
        | Except.ok m2 => applyTop m2 rest).bind (fun m2 => applyTop m2 l2))
    cases assignTopField m e.1 e.2 with
    | error u => rfl
    | ok m2 => exact ih m2

theorem applyTop_cons_unknown (k : String) (v : Json) (es : List (String × Json)) (m : Message)
    (h : unknownTopKey k = true) : applyTop m ((k, v) :: es) = applyTop m es := by
  show (match assignTopField m k v with
    | Except.error u => Except.error u
    | Except.ok m2 => applyTop m2 es) = _
  rw [assignTopField_unknown m k v h]

/-! ## The claims -/

/-- C1: the claim reads "for every pair of outbound records with identical
keys, the publisher's partition selection assigns them deterministically
to the same partition". The code violates it: `main` installs the
`LeastBytes` balancer, whose choice ignores the key. With two partitions
and two consecutive records carrying the same key `"367123456"`, the
first is assigned partition 0 and the second partition 1. -/
theorem ais_c1 :
    (goMain (fun _ => "") ⟨true, true, []⟩).balancer = BalancerKind.leastBytes ∧
    (lbBalance (makeCounters [0, 1]) (kafkaMessageSize ⟨"367123456", e2eFrame⟩)).1 = 0 ∧
    (lbBalance (lbBalance (makeCounters [0, 1]) (kafkaMessageSize ⟨"367123456", e2eFrame⟩)).2
        (kafkaMessageSize ⟨"367123456", e2eFrame⟩)).1 = 1 := by
  refine ⟨by decide, by decide, by decide⟩

/-- C2: every inbound frame that decodes to an envelope with
`MessageType = "PositionReport"` leads to exactly one publish call, whose
key is the decimal string of `UserID` and whose value is the raw frame,
byte for byte. -/
theorem ais_c2 (frame : List Char) (m : Message) (ok : Bool)
    (hdec : decodeMessage frame = .ok m)
    (hmt : m.MessageType = "PositionReport") :
    (stepFrame frame ok).attempts =
      [⟨toString m.Message.PositionReport.UserID, frame⟩] := by
  unfold stepFrame
  rw [hdec]
  cases ok <;> simp [hmt]

/-- C2 witness: the spec's end-to-end scenario frame is published once,
keyed `"367123456"`, with the frame itself as value. -/
theorem ais_c2_witness :
    (stepFrame e2eFrame true).attempts = [⟨"367123456", e2eFrame⟩] :=
  (ais_c2 e2eFrame ⟨"PositionReport", ⟨⟨367123456, ⟨515, -1⟩, ⟨-12, -2⟩⟩⟩⟩ true
    (by decide) rfl).trans (by decide)

/-- C3: an envelope that decodes with any other `MessageType` produces no
publish call and no error log. -/
theorem ais_c3 (frame : List Char) (m : Message) (ok : Bool)
    (hdec : decodeMessage frame = .ok m)
    (hmt : m.MessageType ≠ "PositionReport") :
    stepFrame frame ok = ⟨[], [], []⟩ :=
  stepFrame_nonPR frame m ok hdec hmt

/-- C3 witness: the spec's `ShipStaticData` scenario frame produces no
publish and no log. -/
theorem ais_c3_witness : stepFrame shipFrame true = ⟨[], [], []⟩ :=
  ais_c3 shipFrame ⟨"ShipStaticData", ⟨⟨0, ⟨0, 0⟩, ⟨0, 0⟩⟩⟩⟩ true (by decide) (by decide)

/-- C4: a frame on which decode fails is non-fatal: the error is logged,
nothing is published for it, the connection is not terminated, and the
pipeline handles the rest of the trace exactly as it would without the
bad frame, remaining in the Streaming state. -/
theorem ais_c4 (b : List Char) (ok : Bool) (rest : List ReadEvent)
    (hdec : decodeMessage b = .error ()) :
    (connectAISStream ⟨true, true, .frame b ok :: rest⟩).step.attempts =
        (connectAISStream ⟨true, true, rest⟩).step.attempts ∧
    (connectAISStream ⟨true, true, .frame b ok :: rest⟩).step.delivered =
        (connectAISStream ⟨true, true, rest⟩).step.delivered ∧
    (connectAISStream ⟨true, true, .frame b ok :: rest⟩).step.logs =
        LogEvent.decodeError :: (connectAISStream ⟨true, true, rest⟩).step.logs ∧
    (connectAISStream ⟨true, true, .frame b ok :: rest⟩).err =
        (connectAISStream ⟨true, true, rest⟩).err ∧
    (connectAISStream ⟨true, true, .frame b ok :: rest⟩).finalState =
        (connectAISStream ⟨true, true, rest⟩).finalState ∧
    ((runLoop rest).2 = LoopEnd.running →
      (connectAISStream ⟨true, true, .frame b ok :: rest⟩).finalState = PipeState.Streaming) := by
  have hstep := stepFrame_decodeErr b ok hdec
  refine ⟨?_, ?_, ?_, ?_, ?_, ?_⟩
  · simp [connectAISStream, runLoop, hstep]
  · simp [connectAISStream, runLoop, hstep]
  · simp [connectAISStream, runLoop, hstep]
  · simp [connectAISStream, runLoop, hstep]
  · simp [connectAISStream, runLoop, hstep]
  · intro h
    simp [connectAISStream, runLoop, hstep, h]

/-- C4 witness: the truncated frame of the spec's scenario logs one decode
error, publishes nothing, and the following good frame is still
processed. -/
theorem ais_c4_witness :
    (connectAISStream ⟨true, true, .frame truncatedFrame true :: [.frame e2eFrame true]⟩).step.attempts =
        (connectAISStream ⟨true, true, [.frame e2eFrame true]⟩).step.attempts ∧
    (connectAISStream ⟨true, true, .frame truncatedFrame true :: [.frame e2eFrame true]⟩).step.delivered =
        (connectAISStream ⟨true, true, [.frame e2eFrame true]⟩).step.delivered ∧
    (connectAISStream ⟨true, true, .frame truncatedFrame true :: [.frame e2eFrame true]⟩).step.logs =
        LogEvent.decodeError :: (connectAISStream ⟨true, true, [.frame e2eFrame true]⟩).step.logs ∧
    (connectAISStream ⟨true, true, .frame truncatedFrame true :: [.frame e2eFrame true]⟩).err =
        (connectAISStream ⟨true, true, [.frame e2eFrame true]⟩).err ∧
    (connectAISStream ⟨true, true, .frame truncatedFrame true :: [.frame e2eFrame true]⟩).finalState =
        (connectAISStream ⟨true, true, [.frame e2eFrame true]⟩).finalState ∧
    ((runLoop [.frame e2eFrame true]).2 = LoopEnd.running →
      (connectAISStream ⟨true, true, .frame truncatedFrame true :: [.frame e2eFrame true]⟩).finalState =
        PipeState.Streaming) :=
  ais_c4 truncatedFrame true [.frame e2eFrame true] (by decide)

/-- C5: a failed broker publish is non-fatal: the publish was attempted
once (no retry), the record is not delivered, the failure is logged, and
the pipeline handles the rest of the trace unchanged. -/
theorem ais_c5 (b : List Char) (m : Message) (rest : List ReadEvent)
    (hdec : decodeMessage b = .ok m)
    (hmt : m.MessageType = "PositionReport") :
    (connectAISStream ⟨true, true, .frame b false :: rest⟩).step.attempts =
        ⟨toString m.Message.PositionReport.UserID, b⟩ ::
          (connectAISStream ⟨true, true, rest⟩).step.attempts ∧
    (connectAISStream ⟨true, true, .frame b false :: rest⟩).step.delivered =
        (connectAISStream ⟨true, true, rest⟩).step.delivered ∧
    (connectAISStream ⟨true, true, .frame b false :: rest⟩).step.logs =
        LogEvent.publishError :: (connectAISStream ⟨true, true, rest⟩).step.logs ∧
    (connectAISStream ⟨true, true, .frame b false :: rest⟩).err =
        (connectAISStream ⟨true, true, rest⟩).err ∧
    (connectAISStream ⟨true, true, .frame b false :: rest⟩).finalState =
        (connectAISStream ⟨true, true, rest⟩).finalState := by
  have hstep := stepFrame_pubFail b m hdec hmt
  refine ⟨?_, ?_, ?_, ?_, ?_⟩ <;> simp [connectAISStream, runLoop, hstep]

/-- C5 witness: the end-to-end frame with a failing broker is attempted
once, not delivered, logged, and the following frame is still
processed. -/
theorem ais_c5_witness :
    (connectAISStream ⟨true, true, .frame e2eFrame false :: [.frame e2eFrame true]⟩).step.attempts =
        ⟨"367123456", e2eFrame⟩ ::
          (connectAISStream ⟨true, true, [.frame e2eFrame true]⟩).step.attempts ∧
    (connectAISStream ⟨true, true, .frame e2eFrame false :: [.frame e2eFrame true]⟩).step.delivered =
        (connectAISStream ⟨true, true, [.frame e2eFrame true]⟩).step.delivered ∧
    (connectAISStream ⟨true, true, .frame e2eFrame false :: [.frame e2eFrame true]⟩).step.logs =
        LogEvent.publishError :: (connectAISStream ⟨true, true, [.frame e2eFrame true]⟩).step.logs ∧
    (connectAISStream ⟨true, true, .frame e2eFrame false :: [.frame e2eFrame true]⟩).err =
        (connectAISStream ⟨true, true, [.frame e2eFrame true]⟩).err ∧
    (connectAISStream ⟨true, true, .frame e2eFrame false :: [.frame e2eFrame true]⟩).finalState =
        (connectAISStream ⟨true, true, [.frame e2eFrame true]⟩).finalState := by
  have h := ais_c5 e2eFrame ⟨"PositionReport", ⟨⟨367123456, ⟨515, -1⟩, ⟨-12, -2⟩⟩⟩⟩
    [.frame e2eFrame true] (by decide) rfl
  exact ⟨h.1.trans (by decide), h.2.1, h.2.2.1, h.2.2.2.1, h.2.2.2.2⟩

/-- C6: a read failure is terminal: the run of the pipeline is identical
to the run truncated at the failure (so nothing after it is read or
published), the driver ends in the Terminated state with the read error,
only one dial was ever made (no reconnect), and `main` exits with a
non-zero code. -/
theorem ais_c6 (pre post : List ReadEvent) (envVars : String → String) :
    connectAISStream ⟨true, true, pre ++ .fail :: post⟩ =
      connectAISStream ⟨true, true, pre ++ [.fail]⟩ ∧
    (connectAISStream ⟨true, true, pre ++ .fail :: post⟩).finalState = PipeState.Terminated ∧
    (connectAISStream ⟨true, true, pre ++ .fail :: post⟩).err = some PipeError.readFailed ∧
    (connectAISStream ⟨true, true, pre ++ .fail :: post⟩).dials = 1 ∧
    (goMain envVars ⟨true, true, pre ++ .fail :: post⟩).exitCode = some 1 := by
  have h1 := runLoop_fail_absorb pre post
  have h2 := runLoop_fail_readError pre post
  have h3 : (runLoop (pre ++ [ReadEvent.fail])).2 = LoopEnd.readError :=
    runLoop_fail_readError pre []
  refine ⟨?_, ?_, ?_, ?_, ?_⟩ <;> simp [connectAISStream, goMain, h1, h2, h3]

/-- C7 counterexample: the claim reads the corners as
`(latitude, longitude)` pairs with every coordinate in its valid range.
The subscribe message the source builds, `{{-180, -90}, {180, 90}}`,
violates that invariant: the first coordinate of each corner is ±180,
outside the latitude range [-90, 90]. -/
theorem ais_c7_counterexample :
    ¬ (subscribeMessage.BoundingBoxes.all (fun box => box.all latLonCorner) = true) := by
  decide

/-- C7 (amended): the first outbound frame of every connected run is the
JSON serialization `{"APIKey": ..., "BoundingBoxes": [[[a,b],[a,b]]]}` of
the subscribe message; the request has at least one bounding box, each
box is a pair of two-coordinate corners, and the coordinates are valid
when each corner is read as `(longitude, latitude)` — not in the
`(latitude, longitude)` order the claim states. -/
theorem ais_c7 (net : Env) (h1 : net.connectOk = true) (h2 : net.subscribeOk = true) :
    (connectAISStream net).sent = [subscribeJSON] ∧
    parseTop subscribeJSON =
      some (Json.obj
        [("APIKey", Json.str "4275544f465907fb8c57875dcc52425666683d75"),
         ("BoundingBoxes", Json.arr
           [Json.arr
             [Json.arr [Json.num ⟨-180, 0, some (-180)⟩, Json.num ⟨-90, 0, some (-90)⟩],
              Json.arr [Json.num ⟨180, 0, some 180⟩, Json.num ⟨90, 0, some 90⟩]]])]) ∧
    subscribeMessage.BoundingBoxes ≠ [] ∧
    subscribeMessage.BoundingBoxes.all
      (fun box => decide (box.length = 2) && box.all lonLatCorner) = true := by
  refine ⟨?_, ?_, ?_, ?_⟩
  · simp [connectAISStream, h1, h2]
  · rfl
  · decide
  · decide

/-- C7 witness: in a run whose dial and subscribe succeed, the subscribe
frame is the only outbound frame. -/
theorem ais_c7_witness : (connectAISStream ⟨true, true, []⟩).sent = [subscribeJSON] :=
  (ais_c7 ⟨true, true, []⟩ rfl rfl).1

/-- C8 counterexample: with `BROKER_ADDRESS` and `TOPIC_NAME` set (and the
`KAFKA_*` variables unset), `main` ignores them and uses the defaults:
the recognized variables are `KAFKA_BROKER` and `KAFKA_TOPIC`, not the
names the claim gives. -/
theorem ais_c8_counterexample :
    (goMain c8ClaimEnv ⟨true, true, []⟩).broker = "localhost:9092" ∧
    (goMain c8ClaimEnv ⟨true, true, []⟩).topic = "ais-position-reports" ∧
    (goMain c8ClaimEnv ⟨true, true, []⟩).broker ≠ c8ClaimEnv "BROKER_ADDRESS" ∧
    (goMain c8ClaimEnv ⟨true, true, []⟩).topic ≠ c8ClaimEnv "TOPIC_NAME" := by
  decide

/-- C8 (amended): the broker address and topic are configured through
`KAFKA_BROKER` and `KAFKA_TOPIC` (not `BROKER_ADDRESS`/`TOPIC_NAME`);
when a variable is unset (empty, as `os.Getenv` reports it) the
documented default is used: broker `localhost:9092` and topic
`ais-position-reports`. -/
theorem ais_c8 (envVars : String → String) (net : Env) :
    (goMain envVars net).broker =
      (if envVars "KAFKA_BROKER" = "" then "localhost:9092" else envVars "KAFKA_BROKER") ∧
    (goMain envVars net).topic =
      (if envVars "KAFKA_TOPIC" = "" then "ais-position-reports" else envVars "KAFKA_TOPIC") :=
  ⟨rfl, rfl⟩

/-- C9 counterexample: the claim reads "for every inbound envelope whose
`MessageType` is present but whose nested payload is empty or mismatched,
the pipeline silently drops the envelope". A `PositionReport` envelope
with an empty payload decodes to the zero-valued struct and is published
(key `"0"`), not dropped. -/
theorem ais_c9_counterexample :
    decodeMessage emptyPayloadFrame =
      .ok ⟨"PositionReport", ⟨⟨0, ⟨0, 0⟩, ⟨0, 0⟩⟩⟩⟩ ∧
    (stepFrame emptyPayloadFrame true).attempts ≠ [] ∧
    (stepFrame emptyPayloadFrame true).attempts = [⟨"0", emptyPayloadFrame⟩] := by
  decide

/-- C9 (amended): an envelope that decodes with a `MessageType` other
than `"PositionReport"` is silently dropped (no publish, no log); but an
envelope whose `MessageType` is `"PositionReport"` with an empty payload
is not dropped — it is published verbatim with key `"0"`. -/
theorem ais_c9 (frame : List Char) (m : Message) (ok : Bool)
    (hdec : decodeMessage frame = .ok m)
    (hmt : m.MessageType ≠ "PositionReport") :
    stepFrame frame ok = ⟨[], [], []⟩ ∧
    (stepFrame emptyPayloadFrame ok).attempts = [⟨"0", emptyPayloadFrame⟩] := by
  refine ⟨stepFrame_nonPR frame m ok hdec hmt, ?_⟩
  cases ok <;> decide

/-- C9 witness: the `ShipStaticData` frame is dropped silently while the
empty-payload `PositionReport` frame is published with key `"0"`. -/
theorem ais_c9_witness :
    stepFrame shipFrame true = ⟨[], [], []⟩ ∧
    (stepFrame emptyPayloadFrame true).attempts = [⟨"0", emptyPayloadFrame⟩] :=
  ais_c9 shipFrame ⟨"ShipStaticData", ⟨⟨0, ⟨0, 0⟩, ⟨0, 0⟩⟩⟩⟩ true (by decide) (by decide)

/-- C10: a syntactically valid JSON object frame whose effective
`MessageType` is `"PositionReport"` but whose `Message.PositionReport`
payload is absent, `null`, empty, or holds only keys matching none of the
payload's fields, decodes successfully to the zero-valued struct
(`UserID = 0`, `Latitude = 0`, `Longitude = 0`) and is still published
verbatim with key `"0"`; and an object member whose key matches no struct
field is ignored wherever it is inserted, rather than causing a decode
error. -/
theorem ais_c10 :
    (∀ (frame : List Char) (es : List (String × Json)) (ok : Bool),
        parseTop frame = some (.obj es) →
        es.all zeroTopEntry = true →
        effMessageType es "" = "PositionReport" →
        decodeMessage frame = .ok ⟨"PositionReport", ⟨⟨0, ⟨0, 0⟩, ⟨0, 0⟩⟩⟩⟩ ∧
          (stepFrame frame ok).attempts = [⟨"0", frame⟩]) ∧
    (∀ (es1 es2 : List (String × Json)) (k : String) (v : Json),
        unknownTopKey k = true →
        unmarshalMessage (.obj (es1 ++ (k, v) :: es2)) =
          unmarshalMessage (.obj (es1 ++ es2))) := by
  constructor
  · intro frame es ok hparse hzero heff
    have hdec : decodeMessage frame = .ok ⟨"PositionReport", ⟨⟨0, ⟨0, 0⟩, ⟨0, 0⟩⟩⟩⟩ := by
      unfold decodeMessage
      rw [hparse]
      show applyTop zeroMessage es = _
      rw [applyTop_zero es zeroMessage hzero,
        show effMessageType es zeroMessage.MessageType = "PositionReport" from heff]
      rfl
    refine ⟨hdec, ?_⟩
    unfold stepFrame
    rw [hdec]
    have hts : toString (0 : Int) = "0" := by decide
    cases ok <;> simp [hts]
  · intro es1 es2 k v hk
    show applyTop zeroMessage (es1 ++ (k, v) :: es2) = applyTop zeroMessage (es1 ++ es2)
    rw [applyTop_append, applyTop_append]
    cases applyTop zeroMessage es1 with
    | error u => rfl
    | ok m2 => exact applyTop_cons_unknown k v es2 m2 hk

/-- C10 witness: the empty-payload frame decodes to the zero struct and is
published with key `"0"`, and appending an unknown member `"Foo"` to an
object leaves the decode unchanged. -/
theorem ais_c10_witness :
    (decodeMessage emptyPayloadFrame = .ok ⟨"PositionReport", ⟨⟨0, ⟨0, 0⟩, ⟨0, 0⟩⟩⟩⟩ ∧
      (stepFrame emptyPayloadFrame true).attempts = [⟨"0", emptyPayloadFrame⟩]) ∧
    unmarshalMessage (.obj [("Foo", .bool true)]) = unmarshalMessage (.obj []) :=
  ⟨ais_c10.1 emptyPayloadFrame
      [("MessageType", .str "PositionReport"), ("Message", .obj [])] true rfl (by decide) rfl,
   ais_c10.2 [] [] "Foo" (.bool true) (by decide)⟩
